import Mathlib

/-!
Verification of the `alfabank_sbp` client library (files `client.py` and
`exceptions.py`) against its natural-language specification.

The embedding models:
* JSON values and the serialization performed by
  `json.dumps(data, ensure_ascii=False).encode("utf-8")` (default separators
  `", "` and `": "`, non-ASCII characters left unescaped);
* the exception `AlfaBankSBPClientError(code, message)` together with the
  Python `TypeError` that a one-argument constructor call produces (the
  constructor has two required positional parameters);
* each public operation of `AlfaBankSBPClient`: its identifier validation,
  the envelope it builds via `_build_request_data`, and the request
  assembled by `_send_request`;
* the response check of `_send_request`
  (`if result.get("ErrorCode") != 0: raise ...`);
* the polling loop `poll_qr_status` as a fuel recursion over an oracle of
  per-attempt network outcomes, recording the observable events (status
  queries and sleeps) in a trace.
-/

/-- JSON values as produced by `json.loads` / consumed by `json.dumps`.
Objects are insertion-ordered association lists, matching Python dicts. -/
inductive JsonValue where
  | null : JsonValue
  | bool (b : Bool) : JsonValue
  | num (n : Int) : JsonValue
  | str (s : String) : JsonValue
  | obj (fields : List (String × JsonValue)) : JsonValue
  | arr (elems : List JsonValue) : JsonValue

/-- Python `d.get(k)`: first binding of `k` in an insertion-ordered object. -/
def pyGet (fields : List (String × JsonValue)) (k : String) : Option JsonValue :=
  match fields with
  | [] => none
  | (k₀, v) :: rest => if k₀ = k then some v else pyGet rest k

/-- Python `d.get(k, default)`. -/
def pyGetD (fields : List (String × JsonValue)) (k : String) (dflt : JsonValue) :
    JsonValue :=
  (pyGet fields k).getD dflt

/-- Hex digit for JSON `\uXXXX` escapes of control characters. -/
def hexDigit (n : Nat) : Char :=
  if n < 10 then Char.ofNat (48 + n) else Char.ofNat (87 + n)

/-- How `json.dumps` with `ensure_ascii=False` renders one character inside a
JSON string: `"` and `\` are escaped, control characters below `0x20` use the
short escapes or `\uXXXX`, everything else (including non-ASCII) is kept. -/
def escapeChar (c : Char) : String :=
  if c = '"' then "\\\""
  else if c = '\\' then "\\\\"
  else if c = '\n' then "\\n"
  else if c = '\t' then "\\t"
  else if c = '\r' then "\\r"
  else if c = Char.ofNat 8 then "\\b"
  else if c = Char.ofNat 12 then "\\f"
  else if c.toNat < 32 then
    String.mk ['\\', 'u', '0', '0', hexDigit (c.toNat / 16), hexDigit (c.toNat % 16)]
  else String.singleton c

def escapeChars : List Char → String
  | [] => ""
  | c :: cs => escapeChar c ++ escapeChars cs

/-- JSON string literal for `s`, non-ASCII left unescaped. -/
def jsonStr (s : String) : String :=
  "\"" ++ escapeChars s.data ++ "\""

mutual

/-- Models `json.dumps(v, ensure_ascii=False)`: compact JSON with the Python default
separators `", "` and `": "`, object fields in insertion order, non-ASCII
characters unescaped.  The UTF-8 encoding of the returned string is the byte
sequence `_send_request` both signs and transmits. -/
def jsonDumps : JsonValue → String
  | .null => "null"
  | .bool b => if b then "true" else "false"
  | .num n => toString n
  | .str s => jsonStr s
  | .obj fields => "\x7b" ++ jsonFields fields ++ "\x7d"
  | .arr elems => "[" ++ jsonElems elems ++ "]"

def jsonFields : List (String × JsonValue) → String
  | [] => ""
  | [(k, v)] => jsonStr k ++ ": " ++ jsonDumps v
  | (k, v) :: rest => jsonStr k ++ ": " ++ jsonDumps v ++ ", " ++ jsonFields rest

def jsonElems : List JsonValue → String
  | [] => ""
  | [v] => jsonDumps v
  | v :: rest => jsonDumps v ++ ", " ++ jsonElems rest

end

/-- Exceptions observable from the client:

* `clientError code message` is `AlfaBankSBPClientError(code, message)`;
  `code` is `Option JsonValue` because `_send_request` passes
  `result.get("ErrorCode")`, which is `None` when the field is absent.
* `typeErr` is a Python `TypeError`.  `AlfaBankSBPClientError.__init__` has
  two required positional parameters `code` and `message`, so the call sites
  in `client.py` that pass a single argument raise `TypeError` at the
  constructor instead of the intended client error. -/
inductive PyError where
  | clientError (code : Option JsonValue) (message : JsonValue) : PyError
  | typeErr (info : String) : PyError

/-- A call `AlfaBankSBPClientError(msg)` with one positional argument: the
constructor requires both `code` and `message`, so Python raises `TypeError`
before the exception object exists.  The intended message is dropped. -/
def clientErrorOneArg (_ : String) : PyError :=
  .typeErr "AlfaBankSBPClientError.__init__ missing 1 required positional argument: message"

/-- The runtime configuration of `AlfaBankSBPClient` that is visible in the
requests it builds (`__init__` lines 58-60).  Key material and the TLS session
are transport concerns outside the embedding. -/
structure Client where
  baseUrl : String
  termNo : String
  certAlias : String

/-- Python truthiness of an `Optional[str]` argument, as used by the
`if not (qrc_id or payrrn)` checks: `None` and the empty string are falsy. -/
def truthyOpt : Option String → Bool
  | none => false
  | some s => !s.isEmpty

/-- Optional string parameter as the value stored in a params dict:
`None` becomes JSON `null` (no operation filters unset fields out). -/
def jsOpt : Option String → JsonValue
  | none => .null
  | some s => .str s

/-- Python `str(amount) if amount is not None else None`. -/
def jsOptIntStr : Option Int → JsonValue
  | none => .null
  | some n => .str (toString n)

/-- Python `str(flag).lower() if flag is not None else None`. -/
def jsOptBoolStr : Option Bool → JsonValue
  | none => .null
  | some b => .str (if b then "true" else "false")

/-- Models `_build_request_data`: `{"command": command, "TermNo": self.term_no,
**optional_params}`. -/
def build_request_data (c : Client) (command : String)
    (optional_params : List (String × JsonValue)) : List (String × JsonValue) :=
  ("command", .str command) :: ("TermNo", .str c.termNo) :: optional_params

/-- The envelope of `get_qr_code` (command `GetQRCd`).  The params dict always
contains every key, unset optional parameters as `null`; only the `queryData`
sub-object is conditional, added when any of `notification_url`, `sender_fio`,
`sender_id`, `sender_bank_bic` is truthy. -/
def get_qr_code_request (c : Client) (amount : Int) (currency qrc_type : String)
    (payment_purpose qr_ttl notification_url redirect_url width height
      order_number message_id sender_fio sender_id sender_bank_bic
      subscription_service_id subscription_service_name : Option String) :
    List (String × JsonValue) :=
  build_request_data c "GetQRCd"
    ([("qrcType", .str qrc_type),
      ("amount", .str (toString amount)),
      ("currency", .str currency),
      ("paymentPurpose", jsOpt payment_purpose),
      ("qrTtl", jsOpt qr_ttl),
      ("redirectUrl", jsOpt redirect_url),
      ("width", jsOpt width),
      ("height", jsOpt height),
      ("orderNumber", jsOpt order_number),
      ("messageID", jsOpt message_id),
      ("subscriptionServiceId", jsOpt subscription_service_id),
      ("subscriptionServiceName", jsOpt subscription_service_name)] ++
     (if truthyOpt notification_url || truthyOpt sender_fio || truthyOpt sender_id
          || truthyOpt sender_bank_bic then
        [("queryData", .obj
          [("notificationUrl", jsOpt notification_url),
           ("SenderFIO", jsOpt sender_fio),
           ("SenderID", jsOpt sender_id),
           ("SenderBankBIC", jsOpt sender_bank_bic)])]
      else []))

/-- Models `get_qr_status` up to the point where `_send_request` would be called:
either the validation failure (note the one-argument constructor call on
line 177, hence a `TypeError`) or the envelope that is sent. -/
def get_qr_status_request (c : Client) (qrc_id payrrn message_id : Option String) :
    Except PyError (List (String × JsonValue)) :=
  if truthyOpt qrc_id || truthyOpt payrrn then
    .ok (build_request_data c "GetQRCstatus"
      [("qrcId", jsOpt qrc_id), ("payrrn", jsOpt payrrn), ("messageID", jsOpt message_id)])
  else
    .error (clientErrorOneArg "Требуется qrcId или payrrn")

/-- Models `get_reversal_data` (command `GetQRCreversalData`): validation on line 205
is again a one-argument constructor call. -/
def get_reversal_data_request (c : Client) (qrc_id payrrn trx_id trx_dt : Option String)
    (amount : Option Int) (currency message_id : Option String)
    (return_rest_amount : Option Bool) :
    Except PyError (List (String × JsonValue)) :=
  if truthyOpt qrc_id || truthyOpt payrrn || truthyOpt trx_id then
    .ok (build_request_data c "GetQRCreversalData"
      [("qrcId", jsOpt qrc_id),
       ("payrrn", jsOpt payrrn),
       ("trxId", jsOpt trx_id),
       ("trxDT", jsOpt trx_dt),
       ("amount", jsOptIntStr amount),
       ("currency", jsOpt currency),
       ("messageID", jsOpt message_id),
       ("ReturnRestAmount", jsOptBoolStr return_rest_amount)])
  else
    .error (clientErrorOneArg "Требуется qrcId, payrrn или trxId")

/-- Models `perform_reversal` (command `QRCreversal`): the only validation site that
passes both constructor arguments (line 244), so it raises the typed error.
Its params dict always nests `queryData.notificationUrl`, even when unset. -/
def perform_reversal_request (c : Client) (qrc_id payrrn trx_id trx_dt : Option String)
    (amount : Option Int) (currency message_id notification_url : Option String)
    (return_rest_amount : Option Bool) :
    Except PyError (List (String × JsonValue)) :=
  if truthyOpt qrc_id || truthyOpt payrrn || truthyOpt trx_id then
    .ok (build_request_data c "QRCreversal"
      [("qrcId", jsOpt qrc_id),
       ("payrrn", jsOpt payrrn),
       ("trxId", jsOpt trx_id),
       ("trxDT", jsOpt trx_dt),
       ("amount", jsOptIntStr amount),
       ("currency", jsOpt currency),
       ("messageID", jsOpt message_id),
       ("ReturnRestAmount", jsOptBoolStr return_rest_amount),
       ("queryData", .obj [("notificationUrl", jsOpt notification_url)])])
  else
    .error (.clientError (some (.str "-1")) (.str "Требуется qrcId, payrrn или trxId"))

/-- Models `get_reversal_status` (command `GetQRCreversalStatus`): two validation
checks, both one-argument constructor calls (lines 275 and 277). -/
def get_reversal_status_request (c : Client)
    (payrrn original_trx_id trx_id message_id : Option String) :
    Except PyError (List (String × JsonValue)) :=
  if truthyOpt payrrn || truthyOpt original_trx_id then
    if truthyOpt trx_id || truthyOpt message_id then
      .ok (build_request_data c "GetQRCreversalStatus"
        [("payrrn", jsOpt payrrn),
         ("originalTrxId", jsOpt original_trx_id),
         ("trxId", jsOpt trx_id),
         ("messageID", jsOpt message_id)])
    else
      .error (clientErrorOneArg "Требуется trxId или messageID")
  else
    .error (clientErrorOneArg "Требуется payrrn или originalTrxId")

/-- Models `get_reversal_history` (command `GetQRCreversalHistory`): `payrrn` is a
required positional parameter, no validation. -/
def get_reversal_history_request (c : Client) (payrrn : String) :
    List (String × JsonValue) :=
  build_request_data c "GetQRCreversalHistory" [("payrrn", .str payrrn)]

/-- The outgoing HTTP request assembled by `_send_request` (lines 82-94).
`sign` abstracts `_sign_data` (base64 of the RSA PKCS#1 v1.5 / SHA-256
signature of the body bytes); the body is modelled as the string whose UTF-8
encoding is posted. -/
structure HttpRequest where
  url : String
  contentType : String
  authorization : String
  keyName : String
  body : String

/-- Request assembly in `_send_request`: the envelope is serialized once
(`data = json.dumps(data, ensure_ascii=False).encode("utf-8")`) and the same
`data` value is signed for the `Authorization` header and posted as the body. -/
def send_request_build (sign : String → String) (c : Client) (endpoint : String)
    (data : JsonValue) : HttpRequest :=
  let body := jsonDumps data
  { url := c.baseUrl ++ "/" ++ endpoint
    contentType := "application/x-www-form-urlencoded"
    authorization := sign body
    keyName := c.certAlias
    body := body }

/-- Python `result.get("ErrorCode") != 0` from line 97: `None` (absent field)
and every non-numeric value other than `False` compare unequal to `0`;
among numbers exactly the non-zero ones do.  (`False == 0` in Python.) -/
def errorCodeNeZero : Option JsonValue → Bool
  | none => true
  | some (.num n) => n != 0
  | some (.bool b) => b
  | some _ => true

/-- The response check of `_send_request` (lines 96-99): after a 2xx response
parses as `result`, raise `AlfaBankSBPClientError(result.get("ErrorCode"),
result.get("message", "Неизвестная ошибка"))` when the error code is absent or
unequal to zero, otherwise return `result` unchanged. -/
def check_response (result : List (String × JsonValue)) :
    Except PyError (List (String × JsonValue)) :=
  if errorCodeNeZero (pyGet result "ErrorCode") then
    .error (.clientError (pyGet result "ErrorCode")
      (pyGetD result "message" (.str "Неизвестная ошибка")))
  else
    .ok result

/-- One public operation call with its arguments, used to quantify over every
envelope the client can build. -/
inductive OpCall where
  | qrCode (amount : Int) (currency qrc_type : String)
      (payment_purpose qr_ttl notification_url redirect_url width height
        order_number message_id sender_fio sender_id sender_bank_bic
        subscription_service_id subscription_service_name : Option String) : OpCall
  | qrStatus (qrc_id payrrn message_id : Option String) : OpCall
  | reversalData (qrc_id payrrn trx_id trx_dt : Option String) (amount : Option Int)
      (currency message_id : Option String) (return_rest_amount : Option Bool) : OpCall
  | reversal (qrc_id payrrn trx_id trx_dt : Option String) (amount : Option Int)
      (currency message_id notification_url : Option String)
      (return_rest_amount : Option Bool) : OpCall
  | reversalStatus (payrrn original_trx_id trx_id message_id : Option String) : OpCall
  | reversalHistory (payrrn : String) : OpCall

/-- The envelope an operation hands to `_send_request`, or the exception its
validation raises first. -/
def opRequest (c : Client) : OpCall → Except PyError (List (String × JsonValue))
  | .qrCode amount currency qrc_type payment_purpose qr_ttl notification_url
      redirect_url width height order_number message_id sender_fio sender_id
      sender_bank_bic subscription_service_id subscription_service_name =>
    .ok (get_qr_code_request c amount currency qrc_type payment_purpose qr_ttl
      notification_url redirect_url width height order_number message_id
      sender_fio sender_id sender_bank_bic subscription_service_id
      subscription_service_name)
  | .qrStatus qrc_id payrrn message_id =>
    get_qr_status_request c qrc_id payrrn message_id
  | .reversalData qrc_id payrrn trx_id trx_dt amount currency message_id rra =>
    get_reversal_data_request c qrc_id payrrn trx_id trx_dt amount currency message_id rra
  | .reversal qrc_id payrrn trx_id trx_dt amount currency message_id nurl rra =>
    perform_reversal_request c qrc_id payrrn trx_id trx_dt amount currency message_id nurl rra
  | .reversalStatus payrrn original_trx_id trx_id message_id =>
    get_reversal_status_request c payrrn original_trx_id trx_id message_id
  | .reversalHistory payrrn =>
    .ok (get_reversal_history_request c payrrn)

/-- The six command names of the client. -/
def commandNames : List String :=
  ["GetQRCd", "GetQRCstatus", "GetQRCreversalData", "QRCreversal",
   "GetQRCreversalStatus", "GetQRCreversalHistory"]

/-- Outcome of one status query inside the polling loop, abstracting the
network: a parsed 2xx response with error code 0, an
`AlfaBankSBPClientError` (remote error code or bad response), or a transport
exception from `requests` (non-2xx status via `raise_for_status`, or a
connection failure) which is not an `AlfaBankSBPClientError`. -/
inductive QueryOutcome where
  | success (result : List (String × JsonValue)) : QueryOutcome
  | clientError (code : Option JsonValue) (message : JsonValue) : QueryOutcome
  | transportError (info : String) : QueryOutcome

/-- Observable events of the polling loop: a status query (one
`get_qr_status` HTTP exchange) or a `time.sleep` of the given duration. -/
inductive PollEvent where
  | query : PollEvent
  | sleep (seconds : Int) : PollEvent
deriving DecidableEq

/-- How `poll_qr_status` ends: a terminal result returned, the implicit
`return None` after the loop, or an uncaught exception propagating out. -/
inductive PollResult where
  | finished (result : List (String × JsonValue)) : PollResult
  | exhausted : PollResult
  | raised (info : String) : PollResult

/-- Python `result.get("status") in ["ACWP", "RJCT"]` (line 318). -/
def isTerminalStatus (result : List (String × JsonValue)) : Bool :=
  match pyGet result "status" with
  | some (.str s) => s == "ACWP" || s == "RJCT"
  | _ => false

/-- The `for attempt in range(max_attempts)` loop of `poll_qr_status`
(lines 314-325), one step per fuel unit.  `oracle a` is the outcome of the
status query at attempt index `a`.  A terminal status returns at once; a
non-terminal success or a caught `AlfaBankSBPClientError` sleeps
`max(interval_seconds, 10)` and continues; any other exception propagates
immediately (the `except` clause catches only `AlfaBankSBPClientError`). -/
def pollLoop (oracle : Nat → QueryOutcome) (interval : Int) :
    Nat → Nat → List PollEvent × PollResult
  | _, 0 => ([], .exhausted)
  | a, fuel + 1 =>
    match oracle a with
    | .success result =>
      if isTerminalStatus result then
        ([.query], .finished result)
      else
        let rest := pollLoop oracle interval (a + 1) fuel
        (.query :: .sleep (max interval 10) :: rest.1, rest.2)
    | .clientError _ _ =>
        let rest := pollLoop oracle interval (a + 1) fuel
        (.query :: .sleep (max interval 10) :: rest.1, rest.2)
    | .transportError info => ([.query], .raised info)

/-- Models `poll_qr_status`: identifier validation (line 312, again a one-argument
constructor call) followed by the polling loop. -/
def poll_qr_status (oracle : Nat → QueryOutcome) (qrc_id payrrn : Option String)
    (max_attempts : Nat) (interval : Int) :
    Except PyError (List PollEvent × PollResult) :=
  if truthyOpt qrc_id || truthyOpt payrrn then
    .ok (pollLoop oracle interval 0 max_attempts)
  else
    .error (clientErrorOneArg "Требуется qrcId или payrrn")

/-- An outcome the loop treats as non-terminal: a success whose status is not
`ACWP`/`RJCT`, or a caught client error.  Transport exceptions are excluded:
they abort the loop. -/
def nonTerminalOutcome : QueryOutcome → Bool
  | .success r => !isTerminalStatus r
  | .clientError _ _ => true
  | .transportError _ => false

/-- Exactly `k` repetitions of query-then-sleep, the trace prefix produced by `k`
non-terminal attempts with sleep duration `d`. -/
def cycleTrace (k : Nat) (d : Int) : List PollEvent :=
  match k with
  | 0 => []
  | k + 1 => .query :: .sleep d :: cycleTrace k d

/-- An outcome that is not a transport exception: the loop body runs to the
`except` clause at worst. -/
def notTransport : QueryOutcome → Bool
  | .transportError _ => false
  | _ => true

def isQueryEvent : PollEvent → Bool
  | .query => true
  | _ => false

def isSleepEvent : PollEvent → Bool
  | .sleep _ => true
  | _ => false

/-- A concrete client configuration used to evaluate the model. -/
def sampleClient : Client :=
  { baseUrl := "https://host/fsCryptoProxy"
    termNo := "20000000000000000001"
    certAlias := "alias1" }

/-- A client constructed with an empty terminal identifier; `__init__`
performs no check on `term_no`. -/
def emptyTermClient : Client :=
  { baseUrl := "https://host/fsCryptoProxy"
    termNo := ""
    certAlias := "alias1" }

/-- Status sequence `PDNG, PDNG, ACWP`. -/
def oracleSeq : Nat → QueryOutcome
  | 0 => .success [("status", .str "PDNG")]
  | 1 => .success [("status", .str "PDNG")]
  | _ => .success [("status", .str "ACWP")]

/-- Every attempt ends in a transport exception. -/
def oracleTransport : Nat → QueryOutcome :=
  fun _ => .transportError "connection refused"

/-- Every attempt succeeds with the non-terminal status `PDNG`. -/
def oraclePending : Nat → QueryOutcome :=
  fun _ => .success [("status", .str "PDNG")]

/-- First attempt is a caught client error, second attempt is terminal. -/
def oracleErrThenDone : Nat → QueryOutcome
  | 0 => .clientError (some (.num 5)) (.str "bad signature")
  | _ => .success [("status", .str "ACWP")]

/-- First attempt raises a caught client error, second a transport
exception. -/
def oracleErrThenTransport : Nat → QueryOutcome
  | 0 => .clientError (some (.num 5)) (.str "bad signature")
  | _ => .transportError "timeout"

/-- Number of bindings of key `k` in an envelope. -/
def countKey (env : List (String × JsonValue)) (k : String) : Nat :=
  env.countP (fun p => p.1 == k)

lemma pollLoop_step_nonterminal (oracle : Nat → QueryOutcome) (i : Int) (a fuel : Nat)
    (h : nonTerminalOutcome (oracle a) = true) :
    pollLoop oracle i a (fuel + 1) =
      (.query :: .sleep (max i 10) :: (pollLoop oracle i (a + 1) fuel).1,
       (pollLoop oracle i (a + 1) fuel).2) := by
  cases ho : oracle a with
  | success r =>
    have hterm : isTerminalStatus r = false := by
      simpa [nonTerminalOutcome, ho] using h
    simp [pollLoop, ho, hterm]
  | clientError code msg => simp [pollLoop, ho]
  | transportError info => simp [nonTerminalOutcome, ho] at h

lemma pollLoop_all_nonterminal (oracle : Nat → QueryOutcome) (i : Int) :
    ∀ (fuel a : Nat), (∀ j < fuel, nonTerminalOutcome (oracle (a + j)) = true) →
      pollLoop oracle i a fuel = (cycleTrace fuel (max i 10), .exhausted) := by
  intro fuel
  induction fuel with
  | zero => intro a _; simp [pollLoop, cycleTrace]
  | succ n ih =>
    intro a h
    rw [pollLoop_step_nonterminal oracle i a n
      (by simpa using h 0 (Nat.succ_pos n))]
    have hrec := ih (a + 1) (fun j hj => by
      have := h (j + 1) (Nat.succ_lt_succ hj)
      have heq : a + (j + 1) = a + 1 + j := by omega
      rwa [heq] at this)
    rw [hrec]
    simp [cycleTrace]

lemma pollLoop_unrolled (oracle : Nat → QueryOutcome) (i : Int) :
    ∀ (k a fuel : Nat), k < fuel →
      (∀ j < k, nonTerminalOutcome (oracle (a + j)) = true) →
      pollLoop oracle i a fuel =
        (cycleTrace k (max i 10) ++ (pollLoop oracle i (a + k) (fuel - k)).1,
         (pollLoop oracle i (a + k) (fuel - k)).2) := by
  intro k
  induction k with
  | zero => intro a fuel _ _; simp [cycleTrace]
  | succ n ih =>
    intro a fuel hk h
    obtain ⟨m, rfl⟩ : ∃ m, fuel = m + 1 := ⟨fuel - 1, by omega⟩
    rw [pollLoop_step_nonterminal oracle i a m
      (by simpa using h 0 (Nat.succ_pos n))]
    have hrec := ih (a + 1) m (by omega) (fun j hj => by
      have := h (j + 1) (Nat.succ_lt_succ hj)
      have heq : a + (j + 1) = a + 1 + j := by omega
      rwa [heq] at this)
    rw [hrec]
    have h₁ : a + 1 + n = a + (n + 1) := by omega
    have h₂ : m - n = m + 1 - (n + 1) := by omega
    rw [h₁, h₂]
    simp [cycleTrace]

lemma pollLoop_no_raise (oracle : Nat → QueryOutcome) (i : Int) :
    ∀ (fuel a : Nat), (∀ j < fuel, notTransport (oracle (a + j)) = true) →
      ∀ info, (pollLoop oracle i a fuel).2 ≠ .raised info := by
  intro fuel
  induction fuel with
  | zero => intro a _ info h; simp [pollLoop] at h
  | succ n ih =>
    intro a h info
    have hshift : ∀ j < n, notTransport (oracle (a + 1 + j)) = true := fun j hj => by
      have := h (j + 1) (Nat.succ_lt_succ hj)
      have heq : a + (j + 1) = a + 1 + j := by omega
      rwa [heq] at this
    cases ho : oracle a with
    | success r =>
      by_cases hterm : isTerminalStatus r = true
      · simp [pollLoop, ho, hterm]
      · simp only [pollLoop, ho, Bool.not_eq_true] at *
        simp [hterm]
        exact ih (a + 1) hshift info
    | clientError code msg =>
      simp only [pollLoop, ho]
      exact ih (a + 1) hshift info
    | transportError msg =>
      have := h 0 (Nat.succ_pos n)
      simp [notTransport, ho] at this

lemma pollLoop_chain (oracle : Nat → QueryOutcome) (i : Int) :
    ∀ (fuel a : Nat),
      List.Chain' (fun x y => x = PollEvent.query → y = PollEvent.sleep (max i 10))
        (pollLoop oracle i a fuel).1 := by
  intro fuel
  induction fuel with
  | zero => intro a; simp [pollLoop]
  | succ n ih =>
    intro a
    cases ho : oracle a with
    | success r =>
      by_cases hterm : isTerminalStatus r = true
      · simp [pollLoop, ho, hterm]
      · rw [pollLoop_step_nonterminal oracle i a n
          (by simp [nonTerminalOutcome, ho, hterm])]
        refine List.Chain'.cons' (List.Chain'.cons' (ih (a + 1)) ?_) ?_
        · intro y _ hy
          exact absurd hy (by simp)
        · intro y hy _
          simp at hy
          exact hy.symm
    | clientError code msg =>
      rw [pollLoop_step_nonterminal oracle i a n (by simp [nonTerminalOutcome, ho])]
      refine List.Chain'.cons' (List.Chain'.cons' (ih (a + 1)) ?_) ?_
      · intro y _ hy
        exact absurd hy (by simp)
      · intro y hy _
        simp at hy
        exact hy.symm
    | transportError msg => simp [pollLoop, ho]

lemma pollLoop_sleep_mem (oracle : Nat → QueryOutcome) (i : Int) :
    ∀ (fuel a : Nat) (s : Int),
      PollEvent.sleep s ∈ (pollLoop oracle i a fuel).1 → s = max i 10 := by
  intro fuel
  induction fuel with
  | zero => intro a s h; simp [pollLoop] at h
  | succ n ih =>
    intro a s h
    cases ho : oracle a with
    | success r =>
      by_cases hterm : isTerminalStatus r = true
      · simp [pollLoop, ho, hterm] at h
      · rw [pollLoop_step_nonterminal oracle i a n
          (by simp [nonTerminalOutcome, ho, hterm])] at h
        simp at h
        rcases h with h | h
        · exact h
        · exact ih (a + 1) s h
    | clientError code msg =>
      rw [pollLoop_step_nonterminal oracle i a n (by simp [nonTerminalOutcome, ho])] at h
      simp at h
      rcases h with h | h
      · exact h
      · exact ih (a + 1) s h
    | transportError msg => simp [pollLoop, ho] at h

lemma cycleTrace_count_query (d : Int) :
    ∀ k, (cycleTrace k d).countP isQueryEvent = k := by
  intro k
  induction k with
  | zero => simp [cycleTrace]
  | succ n ih => simp [cycleTrace, List.countP_cons, isQueryEvent, ih]

lemma cycleTrace_count_sleep (d : Int) :
    ∀ k, (cycleTrace k d).countP isSleepEvent = k := by
  intro k
  induction k with
  | zero => simp [cycleTrace]
  | succ n ih => simp [cycleTrace, List.countP_cons, isSleepEvent, ih]

lemma cycleTrace_sleep_mem (d : Int) :
    ∀ k s, PollEvent.sleep s ∈ cycleTrace k d → s = d := by
  intro k
  induction k with
  | zero => intro s h; simp [cycleTrace] at h
  | succ n ih =>
    intro s h
    simp [cycleTrace] at h
    rcases h with h | h
    · exact h
    · exact ih s h

/-- C1: the claim says every required-identifier operation called with all
identifiers of its rule unset raises `AlfaBankSBPClientError` with a message
naming the missing identifiers, before `_send_request` is invoked.  The code
disagrees with itself: `exceptions.py` declares
`__init__(self, code, message)` with two required parameters, yet the
validation sites of `get_qr_status` (line 177), `get_reversal_data`
(line 205), `get_reversal_status` (lines 275, 277) and `poll_qr_status`
(line 312) call the constructor with a single argument, so those calls raise
`TypeError` instead of the typed error.  Only `perform_reversal` (line 244)
passes both arguments and raises the typed error.  No HTTP request is issued
in any of these cases (the result is an error, not an envelope). -/
theorem spec_c1_unset_identifiers_raise_before_send :
    (get_qr_status_request sampleClient none none none =
      .error (.typeErr "AlfaBankSBPClientError.__init__ missing 1 required positional argument: message"))
  ∧ (get_reversal_data_request sampleClient none none none none none none none none =
      .error (.typeErr "AlfaBankSBPClientError.__init__ missing 1 required positional argument: message"))
  ∧ (get_reversal_status_request sampleClient none none none none =
      .error (.typeErr "AlfaBankSBPClientError.__init__ missing 1 required positional argument: message"))
  ∧ (poll_qr_status oraclePending none none 10 10 =
      .error (.typeErr "AlfaBankSBPClientError.__init__ missing 1 required positional argument: message"))
  ∧ (perform_reversal_request sampleClient none none none none none none none none none =
      .error (.clientError (some (.str "-1")) (.str "Требуется qrcId, payrrn или trxId"))) :=
  ⟨rfl, rfl, rfl, rfl, rfl⟩

/-- C2 counterexample: the claim says `get_qr_code` with `amount=10000` and
every optional parameter unset builds an envelope whose keys are exactly
`command`, `TermNo`, `qrcType`, `amount`, `currency`, with no null-valued
fields.  In the code the params dict of `get_qr_code` (lines 140-153) always
contains all twelve parameter keys and nothing ever filters out unset values,
so the envelope carries e.g. `paymentPurpose` bound to JSON `null`. -/
theorem spec_c2_counterexample :
    ((get_qr_code_request sampleClient 10000 "RUB" "02" none none none none none
        none none none none none none none none).map Prod.fst ≠
      ["command", "TermNo", "qrcType", "amount", "currency"])
  ∧ pyGet (get_qr_code_request sampleClient 10000 "RUB" "02" none none none none
      none none none none none none none none none) "paymentPurpose" =
      some .null :=
  ⟨by decide, rfl⟩

/-- C2 amended: unset optional parameters are serialized as JSON `null`
fields, not omitted.  For any client, `get_qr_code` with `amount=10000` and
all optional parameters unset builds the envelope with exactly the fourteen
keys below in insertion order, with `qrcType="02"`, `amount="10000"`,
`currency="RUB"`, every unset parameter bound to `null`, and no `queryData`
key (the only conditional field: it is added only when a notification/sender
parameter is set). -/
theorem spec_c2_envelope_nulls (c : Client) :
    get_qr_code_request c 10000 "RUB" "02" none none none none none none none
        none none none none none none =
      [("command", .str "GetQRCd"),
       ("TermNo", .str c.termNo),
       ("qrcType", .str "02"),
       ("amount", .str "10000"),
       ("currency", .str "RUB"),
       ("paymentPurpose", .null),
       ("qrTtl", .null),
       ("redirectUrl", .null),
       ("width", .null),
       ("height", .null),
       ("orderNumber", .null),
       ("messageID", .null),
       ("subscriptionServiceId", .null),
       ("subscriptionServiceName", .null)]
  ∧ pyGet (get_qr_code_request c 10000 "RUB" "02" none none none none none none
      none none none none none none none) "queryData" = none :=
  ⟨rfl, rfl⟩

/-- C4: `_send_request` raises the typed error iff the parsed `ErrorCode`
field is absent or a non-zero number; the error carries the remote code and
`result.get("message", "Неизвестная ошибка")`, i.e. the message defaults to
the generic unknown-error string when absent; on `ErrorCode` equal to `0` the
full parsed mapping is returned unchanged. -/
theorem spec_c4_response_check (result : List (String × JsonValue)) :
    (pyGet result "ErrorCode" = some (.num 0) → check_response result = .ok result)
  ∧ (∀ n : Int, n ≠ 0 → pyGet result "ErrorCode" = some (.num n) →
      check_response result =
        .error (.clientError (some (.num n))
          (pyGetD result "message" (.str "Неизвестная ошибка"))))
  ∧ (pyGet result "ErrorCode" = none →
      check_response result =
        .error (.clientError none (pyGetD result "message" (.str "Неизвестная ошибка"))))
  ∧ (pyGet result "message" = none →
      pyGetD result "message" (.str "Неизвестная ошибка") = .str "Неизвестная ошибка")
  ∧ (∀ e, check_response result = .error e →
      ∃ code msg, e = .clientError code msg) := by
  refine ⟨?_, ?_, ?_, ?_, ?_⟩
  · intro h
    simp [check_response, h, errorCodeNeZero]
  · intro n hn h
    simp [check_response, h, errorCodeNeZero, hn]
  · intro h
    simp [check_response, h, errorCodeNeZero]
  · intro h
    simp [pyGetD, h]
  · intro e he
    unfold check_response at he
    split at he
    · obtain rfl : PyError.clientError (pyGet result "ErrorCode")
          (pyGetD result "message" (.str "Неизвестная ошибка")) = e := by
        injection he
      exact ⟨_, _, rfl⟩
    · exact absurd he (by simp)

/-- C4 witness: the spec's own examples — error code `0` returns the mapping
unchanged; error code `5` with message `"bad signature"` raises the typed
error carrying code `5` and that message. -/
theorem spec_c4_response_check_witness :
    check_response [("ErrorCode", .num 0), ("qrcId", .str "q")] =
      .ok [("ErrorCode", .num 0), ("qrcId", .str "q")]
  ∧ check_response [("ErrorCode", .num 5), ("message", .str "bad signature")] =
      .error (.clientError (some (.num 5)) (.str "bad signature"))
  ∧ check_response [("qrcId", .str "q")] =
      .error (.clientError none (.str "Неизвестная ошибка")) :=
  ⟨(spec_c4_response_check [("ErrorCode", .num 0), ("qrcId", .str "q")]).1 rfl,
   (spec_c4_response_check [("ErrorCode", .num 5), ("message", .str "bad signature")]).2.1
     5 (by decide) rfl,
   (spec_c4_response_check [("qrcId", .str "q")]).2.2.1 rfl⟩

/-- C5: `_send_request` serializes the envelope once
(`data = json.dumps(data, ensure_ascii=False).encode("utf-8")`, line 82) and
the `Authorization` header is `_sign_data` applied to that same value, which
is also the posted body: the signed bytes are exactly the transmitted bytes,
for every signing function and every envelope.  The final conjunct evaluates
the serializer on a concrete envelope, showing field order preserved as
inserted and non-ASCII characters left unescaped. -/
theorem spec_c5_signed_bytes_are_sent_bytes (sign : String → String) (c : Client)
    (endpoint : String) (data : JsonValue) :
    (send_request_build sign c endpoint data).authorization =
      sign (send_request_build sign c endpoint data).body
  ∧ (send_request_build sign c endpoint data).body = jsonDumps data
  ∧ jsonDumps (.obj [("command", .str "GetQRCd"),
      ("paymentPurpose", .str "оплата заказа"), ("amount", .null)]) =
      "\x7b\"command\": \"GetQRCd\", \"paymentPurpose\": \"оплата заказа\", \"amount\": null\x7d" :=
  ⟨rfl, rfl, by decide⟩

/-- C3 counterexample: the claim says every error during a status query inside
`poll_qr_status` — including a transport failure — is absorbed, the poller
waits and proceeds to the next attempt.  But the `except` clause on line 323
catches only `AlfaBankSBPClientError`; a `requests` transport exception
(non-2xx status via `raise_for_status`, or a connection failure) propagates.
With a budget of 2 attempts and a connection failure on the first query, the
poll ends after a single query, with no sleep and no second attempt, raising
the transport error to the caller. -/
theorem spec_c3_counterexample :
    poll_qr_status oracleTransport (some "q1") none 2 10 =
      .ok ([.query], .raised "connection refused") :=
  rfl

/-- C3 amended: inside `poll_qr_status` only the typed client error
(`AlfaBankSBPClientError`) is absorbed — the poller sleeps and proceeds to
the next attempt, and a run whose queries never hit a transport exception
never propagates an error; a transport failure (non-2xx HTTP status or
connection failure) is NOT absorbed: it propagates to the caller immediately,
after the query it arose in and with no further sleep or attempt. -/
theorem spec_c3_only_client_errors_absorbed (oracle : Nat → QueryOutcome)
    (interval : Int) (maxA : Nat) (qrc_id payrrn : Option String)
    (hid : (truthyOpt qrc_id || truthyOpt payrrn) = true) :
    ((∀ j < maxA, notTransport (oracle j) = true) →
      ∀ tr info, poll_qr_status oracle qrc_id payrrn maxA interval ≠ .ok (tr, .raised info))
  ∧ (∀ (a fuel : Nat) (code : Option JsonValue) (msg : JsonValue),
      oracle a = .clientError code msg →
      pollLoop oracle interval a (fuel + 1) =
        (.query :: .sleep (max interval 10) :: (pollLoop oracle interval (a + 1) fuel).1,
         (pollLoop oracle interval (a + 1) fuel).2))
  ∧ (∀ k, k < maxA → (∀ j < k, nonTerminalOutcome (oracle j) = true) →
      ∀ info, oracle k = .transportError info →
      poll_qr_status oracle qrc_id payrrn maxA interval =
        .ok (cycleTrace k (max interval 10) ++ [.query], .raised info)) := by
  refine ⟨?_, ?_, ?_⟩
  · intro hnt tr info heq
    simp only [poll_qr_status, hid, if_true] at heq
    injection heq with heq
    have hres : (pollLoop oracle interval 0 maxA).2 = .raised info := by
      rw [heq]
    exact pollLoop_no_raise oracle interval maxA 0
      (fun j hj => by simpa using hnt j hj) info hres
  · intro a fuel code msg ho
    exact pollLoop_step_nonterminal oracle interval a fuel
      (by simp [nonTerminalOutcome, ho])
  · intro k hk hprev info ho
    simp only [poll_qr_status, hid, if_true]
    rw [pollLoop_unrolled oracle interval k 0 maxA hk
      (fun j hj => by simpa using hprev j hj)]
    obtain ⟨m, hm⟩ : ∃ m, maxA - k = m + 1 := ⟨maxA - k - 1, by omega⟩
    rw [hm]
    simp [pollLoop, ho]

/-- C3 amended witness: with a caught client error on attempt 0 and a
transport exception on attempt 1, the poller absorbs the first (sleeps and
retries) and propagates the second after the query that raised it. -/
theorem spec_c3_only_client_errors_absorbed_witness :
    poll_qr_status oracleErrThenTransport (some "q1") none 3 2 =
      .ok (cycleTrace 1 (max 2 10) ++ [.query], .raised "timeout") :=
  (spec_c3_only_client_errors_absorbed oracleErrThenTransport 2 3 (some "q1") none
    (by decide)).2.2 1 (by decide) (by decide) "timeout" rfl

/-- C6: if the first status query whose result is terminal (`status` equal to
`ACWP` or `RJCT`) is attempt `k` within the budget, `poll_qr_status` returns
that full parsed result immediately: the trace is `k` query-sleep pairs
followed by a single final query — no further query and no sleep after the
terminal one — so `k + 1` queries and `k` sleeps in total, each sleep lasting
`max(interval_seconds, 10)`. -/
theorem spec_c6_first_terminal_returned (oracle : Nat → QueryOutcome) (interval : Int)
    (qrc_id payrrn : Option String) (maxA k : Nat) (result : List (String × JsonValue))
    (hid : (truthyOpt qrc_id || truthyOpt payrrn) = true)
    (hk : k < maxA)
    (hprev : ∀ j < k, nonTerminalOutcome (oracle j) = true)
    (hq : oracle k = .success result)
    (hterm : isTerminalStatus result = true) :
    poll_qr_status oracle qrc_id payrrn maxA interval =
      .ok (cycleTrace k (max interval 10) ++ [.query], .finished result)
  ∧ (cycleTrace k (max interval 10) ++ [PollEvent.query]).countP isQueryEvent = k + 1
  ∧ (cycleTrace k (max interval 10) ++ [PollEvent.query]).countP isSleepEvent = k := by
  refine ⟨?_, ?_, ?_⟩
  · simp only [poll_qr_status, hid, if_true]
    rw [pollLoop_unrolled oracle interval k 0 maxA hk
      (fun j hj => by simpa using hprev j hj)]
    obtain ⟨m, hm⟩ : ∃ m, maxA - k = m + 1 := ⟨maxA - k - 1, by omega⟩
    rw [hm]
    simp [pollLoop, hq, hterm]
  · rw [List.countP_append, cycleTrace_count_query]
    simp [isQueryEvent]
  · rw [List.countP_append, cycleTrace_count_sleep]
    simp [isSleepEvent]

/-- C6 witness: the spec's scenario — `max_attempts=3`, `interval_seconds=1`,
status sequence `PDNG, PDNG, ACWP`: the third response is returned after
exactly 3 queries with sleeps of `max(1,10)=10` between attempts 1-2 and
2-3. -/
theorem spec_c6_first_terminal_returned_witness :
    poll_qr_status oracleSeq (some "q1") none 3 1 =
      .ok ([.query, .sleep 10, .query, .sleep 10, .query],
        .finished [("status", .str "ACWP")])
  ∧ ([PollEvent.query, .sleep 10, .query, .sleep 10, .query]).countP isQueryEvent = 3
  ∧ ([PollEvent.query, .sleep 10, .query, .sleep 10, .query]).countP isSleepEvent = 2 :=
  spec_c6_first_terminal_returned oracleSeq 1 (some "q1") none 3 2
    [("status", .str "ACWP")] (by decide) (by decide) (by decide) rfl rfl

/-- C7: when every status query within the `max_attempts` budget is
non-terminal (a response whose `status` is neither `ACWP` nor `RJCT`, or a
caught client error), the loop runs all `max_attempts` attempts — exactly
`max_attempts` queries — and falls off the `for` loop, returning `None`
(modelled as `PollResult.exhausted`). -/
theorem spec_c7_budget_exhausted_returns_none (oracle : Nat → QueryOutcome)
    (interval : Int) (qrc_id payrrn : Option String) (maxA : Nat)
    (hid : (truthyOpt qrc_id || truthyOpt payrrn) = true)
    (h : ∀ j < maxA, nonTerminalOutcome (oracle j) = true) :
    poll_qr_status oracle qrc_id payrrn maxA interval =
      .ok (cycleTrace maxA (max interval 10), .exhausted)
  ∧ (cycleTrace maxA (max interval 10)).countP isQueryEvent = maxA := by
  constructor
  · simp only [poll_qr_status, hid, if_true]
    rw [pollLoop_all_nonterminal oracle interval maxA 0
      (fun j hj => by simpa using h j hj)]
  · exact cycleTrace_count_query _ maxA

/-- C7 witness: two attempts, both `PDNG`: exactly 2 queries and no result. -/
theorem spec_c7_budget_exhausted_returns_none_witness :
    poll_qr_status oraclePending (some "q1") none 2 3 =
      .ok (cycleTrace 2 (max 3 10), .exhausted)
  ∧ (cycleTrace 2 (max 3 10)).countP isQueryEvent = 2 :=
  spec_c7_budget_exhausted_returns_none oraclePending 3 (some "q1") none 2
    (by decide) (by decide)

/-- C8: in every run of `poll_qr_status`, every sleep lasts exactly
`max(interval_seconds, 10)` seconds — hence at least 10 — and in the trace a
query is never followed directly by another query: a sleep of
`max(interval_seconds, 10)` stands between any two consecutive queries,
whatever `interval_seconds` the caller supplies (including values below
10). -/
theorem spec_c8_ten_second_floor (oracle : Nat → QueryOutcome) (interval : Int)
    (qrc_id payrrn : Option String) (maxA : Nat) (tr : List PollEvent)
    (res : PollResult)
    (h : poll_qr_status oracle qrc_id payrrn maxA interval = .ok (tr, res)) :
    List.Chain' (fun x y => x = PollEvent.query → y = PollEvent.sleep (max interval 10)) tr
  ∧ ∀ s : Int, PollEvent.sleep s ∈ tr → s = max interval 10 ∧ 10 ≤ s := by
  have htr : tr = (pollLoop oracle interval 0 maxA).1 := by
    unfold poll_qr_status at h
    split at h
    · injection h with h
      rw [h]
    · exact absurd h (by simp)
  subst htr
  constructor
  · exact pollLoop_chain oracle interval maxA 0
  · intro s hs
    have hd := pollLoop_sleep_mem oracle interval maxA 0 s hs
    exact ⟨hd, hd ▸ le_max_right interval 10⟩

/-- C8 witness: a run with `interval_seconds=1` (below the floor): every
sleep is `max(1,10)=10` seconds and sleeps separate consecutive queries. -/
theorem spec_c8_ten_second_floor_witness :
    List.Chain' (fun x y => x = PollEvent.query → y = PollEvent.sleep (max 1 10))
      [PollEvent.query, .sleep 10, .query, .sleep 10, .query]
  ∧ ∀ s : Int, PollEvent.sleep s ∈
      [PollEvent.query, .sleep 10, .query, .sleep 10, .query] →
      s = max 1 10 ∧ 10 ≤ s :=
  spec_c8_ten_second_floor oracleSeq 1 (some "q1") none 3
    [PollEvent.query, .sleep 10, .query, .sleep 10, .query]
    (.finished [("status", .str "ACWP")]) rfl

/-- C10: when the budget is exhausted without a terminal status, the loop
body sleeps `max(interval_seconds, 10)` once per attempt — `time.sleep` is
executed in both the non-terminal branch (line 322) and the `except` branch
(line 325), including after the final query even though no further query
follows — so the trace holds exactly `max_attempts` sleeps of that duration
before `None` is returned. -/
theorem spec_c10_sleep_after_every_query (oracle : Nat → QueryOutcome)
    (interval : Int) (qrc_id payrrn : Option String) (maxA : Nat)
    (hid : (truthyOpt qrc_id || truthyOpt payrrn) = true)
    (h : ∀ j < maxA, nonTerminalOutcome (oracle j) = true) :
    poll_qr_status oracle qrc_id payrrn maxA interval =
      .ok (cycleTrace maxA (max interval 10), .exhausted)
  ∧ (cycleTrace maxA (max interval 10)).countP isSleepEvent = maxA
  ∧ ∀ s : Int, PollEvent.sleep s ∈ cycleTrace maxA (max interval 10) →
      s = max interval 10 := by
  refine ⟨?_, cycleTrace_count_sleep _ maxA, cycleTrace_sleep_mem _ maxA⟩
  simp only [poll_qr_status, hid, if_true]
  rw [pollLoop_all_nonterminal oracle interval maxA 0
    (fun j hj => by simpa using h j hj)]

/-- C10 witness: one pending attempt with `interval_seconds=7`: the single
query is followed by one sleep of `max(7,10)=10` before `None` is
returned. -/
theorem spec_c10_sleep_after_every_query_witness :
    poll_qr_status oraclePending (some "q1") none 1 7 =
      .ok (cycleTrace 1 (max 7 10), .exhausted)
  ∧ (cycleTrace 1 (max 7 10)).countP isSleepEvent = 1
  ∧ ∀ s : Int, PollEvent.sleep s ∈ cycleTrace 1 (max 7 10) → s = max 7 10 :=
  spec_c10_sleep_after_every_query oraclePending 7 (some "q1") none 1
    (by decide) (by decide)

/-- C9 counterexample: the claim says `TermNo` is never the empty string, but
`__init__` stores `term_no` without any check (line 59), so a client
constructed with an empty terminal identifier builds envelopes whose `TermNo`
is `""`. -/
theorem spec_c9_counterexample :
    opRequest emptyTermClient (.reversalHistory "123456789012") =
      .ok [("command", .str "GetQRCreversalHistory"), ("TermNo", .str ""),
           ("payrrn", .str "123456789012")]
  ∧ pyGet [("command", JsonValue.str "GetQRCreversalHistory"), ("TermNo", .str ""),
      ("payrrn", .str "123456789012")] "TermNo" = some (.str "") :=
  ⟨rfl, rfl⟩

/-- C9 amended: every envelope any operation hands to `_send_request` carries
exactly one `command` binding, whose value is one of the six fixed command
names, and exactly one `TermNo` binding, whose value is the configured
terminal identifier — hence non-empty provided the client was constructed
with a non-empty `term_no` (the code itself never enforces that). -/
theorem spec_c9_envelope_invariant (c : Client) (op : OpCall)
    (env : List (String × JsonValue)) (h : opRequest c op = .ok env) :
    countKey env "command" = 1
  ∧ (∃ cmd, pyGet env "command" = some (.str cmd) ∧ cmd ∈ commandNames)
  ∧ countKey env "TermNo" = 1
  ∧ pyGet env "TermNo" = some (.str c.termNo)
  ∧ (c.termNo ≠ "" → ∃ t, pyGet env "TermNo" = some (.str t) ∧ t ≠ "") := by
  cases op with
  | qrCode amount currency qrc_type pp qttl nurl rurl w hgt onum mid sfio sid sbic ssid ssn =>
    simp only [opRequest] at h
    injection h with h
    subst h
    refine ⟨?_, ⟨"GetQRCd", rfl, by decide⟩, ?_, rfl, fun hne => ⟨c.termNo, rfl, hne⟩⟩
    · unfold countKey get_qr_code_request build_request_data
      by_cases hc : (truthyOpt nurl || truthyOpt sfio || truthyOpt sid || truthyOpt sbic) = true
      · simp only [hc, if_true]
        rfl
      · rw [if_neg hc]
        rfl
    · unfold countKey get_qr_code_request build_request_data
      by_cases hc : (truthyOpt nurl || truthyOpt sfio || truthyOpt sid || truthyOpt sbic) = true
      · simp only [hc, if_true]
        rfl
      · rw [if_neg hc]
        rfl
  | qrStatus qrc_id payrrn mid =>
    simp only [opRequest, get_qr_status_request] at h
    split at h
    · injection h with h
      subst h
      exact ⟨rfl, ⟨"GetQRCstatus", rfl, by decide⟩, rfl, rfl,
        fun hne => ⟨c.termNo, rfl, hne⟩⟩
    · exact absurd h (by simp)
  | reversalData qrc_id payrrn trx_id trx_dt amount currency mid rra =>
    simp only [opRequest, get_reversal_data_request] at h
    split at h
    · injection h with h
      subst h
      exact ⟨rfl, ⟨"GetQRCreversalData", rfl, by decide⟩, rfl, rfl,
        fun hne => ⟨c.termNo, rfl, hne⟩⟩
    · exact absurd h (by simp)
  | reversal qrc_id payrrn trx_id trx_dt amount currency mid nurl rra =>
    simp only [opRequest, perform_reversal_request] at h
    split at h
    · injection h with h
      subst h
      exact ⟨rfl, ⟨"QRCreversal", rfl, by decide⟩, rfl, rfl,
        fun hne => ⟨c.termNo, rfl, hne⟩⟩
    · exact absurd h (by simp)
  | reversalStatus payrrn otrx trx_id mid =>
    simp only [opRequest, get_reversal_status_request] at h
    split at h
    · split at h
      · injection h with h
        subst h
        exact ⟨rfl, ⟨"GetQRCreversalStatus", rfl, by decide⟩, rfl, rfl,
          fun hne => ⟨c.termNo, rfl, hne⟩⟩
      · exact absurd h (by simp)
    · exact absurd h (by simp)
  | reversalHistory payrrn =>
    simp only [opRequest, get_reversal_history_request] at h
    injection h with h
    subst h
    exact ⟨rfl, ⟨"GetQRCreversalHistory", rfl, by decide⟩, rfl, rfl,
      fun hne => ⟨c.termNo, rfl, hne⟩⟩

/-- C9 amended witness: the invariant evaluated on the reversal-history
envelope of a client with a non-empty terminal identifier. -/
theorem spec_c9_envelope_invariant_witness :
    countKey [("command", JsonValue.str "GetQRCreversalHistory"),
      ("TermNo", .str "20000000000000000001"),
      ("payrrn", .str "123456789012")] "command" = 1
  ∧ (∃ cmd, pyGet [("command", JsonValue.str "GetQRCreversalHistory"),
      ("TermNo", .str "20000000000000000001"),
      ("payrrn", .str "123456789012")] "command" = some (.str cmd) ∧
        cmd ∈ commandNames)
  ∧ countKey [("command", JsonValue.str "GetQRCreversalHistory"),
      ("TermNo", .str "20000000000000000001"),
      ("payrrn", .str "123456789012")] "TermNo" = 1
  ∧ pyGet [("command", JsonValue.str "GetQRCreversalHistory"),
      ("TermNo", .str "20000000000000000001"),
      ("payrrn", .str "123456789012")] "TermNo" =
        some (.str "20000000000000000001")
  ∧ ("20000000000000000001" ≠ "" →
      ∃ t, pyGet [("command", JsonValue.str "GetQRCreversalHistory"),
        ("TermNo", .str "20000000000000000001"),
        ("payrrn", .str "123456789012")] "TermNo" = some (.str t) ∧ t ≠ "") :=
  spec_c9_envelope_invariant sampleClient (.reversalHistory "123456789012")
    [("command", JsonValue.str "GetQRCreversalHistory"),
     ("TermNo", .str "20000000000000000001"),
     ("payrrn", .str "123456789012")] rfl
